import Mathlib

/-!
# Verification of the Chicago Air Quality analysis pipeline

Shallow embedding of `src/chicago_air_quality_analysis.py`: the data loading
and year filtering (`load_and_preprocess_data`), the per-pollutant availability
computation (`generate_professional_report` / `main`), the season assignment and
seasonal aggregation (`create_premium_visualizations` /
`generate_professional_report`), together with the gap-filling resampler and
trend test that the design document describes but that are absent from the
script under `src/` (those are modelled from the specification text).

Dates are calendar dates at day granularity; pollutant readings are `Option ℚ`
(`none` models a pandas NaN / missing cell); a pandas `DataFrame` of the
canonical schema is a `List Row`.
-/

/-- A calendar date at day granularity (`pd.Timestamp` with no time-of-day as
used by the script). -/
structure Date where
  year : ℕ
  month : ℕ
  day : ℕ
deriving DecidableEq, Repr

/-- One row of the canonical `air_data` frame.  `date` is the parsed date
column; `pm25`/`pm10`/`o3`/`no2` are the renamed pollutant columns (`none` is a
NaN).  `month`, `monthName` and `season` model the derived columns that
`create_premium_visualizations` and `generate_professional_report` assign onto
the frame (`none` means the column has not been added yet). -/
structure Row where
  date : Date
  pm25 : Option ℚ
  pm10 : Option ℚ
  o3 : Option ℚ
  no2 : Option ℚ
  month : Option ℕ
  monthName : Option String
  season : Option String
deriving DecidableEq, Repr

/-- One row of the raw CSV as read by `pd.read_csv(..., parse_dates=["date"])`:
a parsed date plus the remaining cells keyed by column name. -/
structure RawRow where
  date : Date
  cells : List (String × Option ℚ)
deriving DecidableEq, Repr

/-- The raw frame produced by `pd.read_csv`: a header (the column names) and
the parsed rows. -/
structure RawFrame where
  header : List String
  rows : List RawRow
deriving DecidableEq, Repr

/-- Cell access on one raw row by column name (a missing key inside a row is a
NaN). -/
def RawRow.cell (r : RawRow) (c : String) : Option ℚ :=
  (r.cells.lookup c).getD none

/-- The year filter
`df[(df['date'].dt.year >= start) & (df['date'].dt.year <= stop)]`
(the script instantiates `start = 2000`, `stop = 2002`). -/
def temporalFilter (start stop : ℕ) (rows : List RawRow) : List RawRow :=
  rows.filter (fun r => decide (start ≤ r.date.year) && decide (r.date.year ≤ stop))

/-- The four pollutant column names hard-coded by
`df[['pm25tmean2', 'pm10tmean2', 'o3tmean2', 'no2tmean2']]`. -/
def requiredCols : List String :=
  ["pm25tmean2", "pm10tmean2", "o3tmean2", "no2tmean2"]

/-- The loader `load_and_preprocess_data`: filter the raw frame to years
2000–2002, select
the four hard-coded pollutant columns (renamed to `pm25`/`pm10`/`o3`/`no2`) and
return the canonical frame.  Column selection `df[[...]]` raises a `KeyError`
when any of the four names is absent from the frame's columns; that exception is
modelled by `Except.error`. -/
def load_and_preprocess_data (f : RawFrame) : Except String (List Row) :=
  if requiredCols.all (fun c => decide (c ∈ f.header)) then
    .ok ((temporalFilter 2000 2002 f.rows).map (fun r =>
      { date := r.date
        pm25 := r.cell "pm25tmean2"
        pm10 := r.cell "pm10tmean2"
        o3 := r.cell "o3tmean2"
        no2 := r.cell "no2tmean2"
        month := none
        monthName := none
        season := none }))
  else
    .error "KeyError: pollutant column missing"

/-- The count `air_data[pollutant].count()`: the number of non-NaN entries of
one pollutant column. -/
def countPoll (xs : List (Option ℚ)) : ℕ :=
  (xs.filterMap id).length

/-- The percentage `(count / len(air_data)) * 100` as computed in
`generate_professional_report` and in `main`.  On an empty frame the division
is `0 / 0`, which in the script yields NaN (numpy true division, warnings
suppressed); NaN is modelled by `none`. -/
def coveragePct (xs : List (Option ℚ)) : Option ℚ :=
  if xs.length = 0 then none
  else some (((countPoll xs : ℚ) / (xs.length : ℚ)) * 100)

/-- The coverage formula in the specification's words,
`100 * count / max(1, total_records)`; kept separate from `coveragePct` so the
two can be compared (refinement check). -/
def specCoverage (count total : ℕ) : ℚ :=
  100 * (count : ℚ) / (max 1 total : ℕ)

/-- The mapping `air_data['date'].dt.month.map({12: 'Winter', 1: 'Winter',
...})`: the fixed month-number → season dictionary; a month outside the
dictionary's keys would map to NaN (`none`). -/
def seasonOfMonth (m : ℕ) : Option String :=
  match m with
  | 12 => some "Winter"
  | 1 => some "Winter"
  | 2 => some "Winter"
  | 3 => some "Spring"
  | 4 => some "Spring"
  | 5 => some "Spring"
  | 6 => some "Summer"
  | 7 => some "Summer"
  | 8 => some "Summer"
  | 9 => some "Fall"
  | 10 => some "Fall"
  | 11 => some "Fall"
  | _ => none

/-- The month name `air_data['date'].dt.month_name()` for the twelve calendar
months. -/
def monthNameOf (m : ℕ) : String :=
  match m with
  | 1 => "January"
  | 2 => "February"
  | 3 => "March"
  | 4 => "April"
  | 5 => "May"
  | 6 => "June"
  | 7 => "July"
  | 8 => "August"
  | 9 => "September"
  | 10 => "October"
  | 11 => "November"
  | 12 => "December"
  | _ => ""

/-- The effect of `create_premium_visualizations` on the frame passed to it:
the in-place column assignments `air_data['month'] = ...`,
`air_data['month_name'] = ...` and `air_data['season'] = ...` (the plotting
calls read the frame but do not change it further). -/
def vizEffect (rows : List Row) : List Row :=
  rows.map (fun r =>
    { r with
        month := some r.date.month
        monthName := some (monthNameOf r.date.month)
        season := seasonOfMonth r.date.month })

/-- The effect of `generate_professional_report` on the frame passed to it:
the in-place column assignment `air_data['season'] = ...`. -/
def reportEffect (rows : List Row) : List Row :=
  rows.map (fun r => { r with season := seasonOfMonth r.date.month })

/-- The season assignment applied to a single row (one element of the
`air_data['season'] = air_data['date'].dt.month.map({...})` column). -/
def addSeason (r : Row) : Row :=
  { r with season := seasonOfMonth r.date.month }

/-- The `date` and pollutant fields of a row — the part of the frame that
existed before the derived columns are assigned. -/
def coreView (r : Row) : Date × Option ℚ × Option ℚ × Option ℚ × Option ℚ :=
  (r.date, r.pm25, r.pm10, r.o3, r.no2)

/-- The four season labels in lexicographic (alphabetical) order. -/
def allSeasonsAlpha : List String :=
  ["Fall", "Spring", "Summer", "Winter"]

/-- The index of `seasonal_avg = air_data.groupby('season')[pollutants].mean()`:
pandas `groupby` keys are the distinct non-NaN values of the `season` column in
sorted order.  Since every season label is one of the four fixed names, the
sorted distinct keys are exactly the members of `allSeasonsAlpha` that occur in
the column, in that (alphabetical) order. -/
def seasonKeys (rows : List Row) : List String :=
  allSeasonsAlpha.filter (fun s => (rows.filterMap (fun r => r.season)).contains s)

/-- Modelled from the spec: helper of the Gap-Filling Resampler, absent from
the script under `src/`.  Position (offset from the head) and value of the
first defined entry of a daily series, scanning forward. -/
def firstDef : List (Option ℚ) → Option (ℕ × ℚ)
  | [] => none
  | some v :: _ => some (0, v)
  | none :: rest => (firstDef rest).map (fun p => (p.1 + 1, p.2))

/-- Modelled from the spec: the nearest defined entry strictly before index `i`
of the dense daily series (largest `j < i` holding a value). -/
def prevDef (l : List (Option ℚ)) : ℕ → Option (ℕ × ℚ)
  | 0 => none
  | i + 1 =>
    match l.get? i with
    | some (some v) => some (i, v)
    | _ => prevDef l i

/-- Modelled from the spec: the nearest defined entry strictly after index `i`
of the dense daily series (smallest `k > i` holding a value). -/
def nextDef (l : List (Option ℚ)) (i : ℕ) : Option (ℕ × ℚ) :=
  (firstDef (l.drop (i + 1))).map (fun p => (i + 1 + p.1, p.2))

/-- Modelled from the spec: the Gap-Filling Resampler's interpolation pass,
absent from the script under `src/`.  The input is the dense daily series over
the min–max observed calendar span, one entry per consecutive calendar day,
`none` for an initially missing day.  Each missing day strictly between a
defined day `j` and the next defined day `k` is filled by linear interpolation
when the gap `k - j - 1` is at most 7 consecutive missing days; days inside a
longer gap, and days with no defined neighbour on one side, stay undefined. -/
def fillAt (l : List (Option ℚ)) (i : ℕ) : Option ℚ :=
  match l.get? i with
  | some (some v) => some v
  | _ =>
    match prevDef l i, nextDef l i with
    | some jp, some kp =>
      if kp.1 - jp.1 - 1 ≤ 7 then
        some (jp.2 + (kp.2 - jp.2) * (((i : ℚ) - (jp.1 : ℚ)) / ((kp.1 : ℚ) - (jp.1 : ℚ))))
      else none
    | _, _ => none

/-- Modelled from the spec: the whole gap-filled daily series, one entry per
calendar day of the span. -/
def fillGaps (l : List (Option ℚ)) : List (Option ℚ) :=
  (List.range l.length).map (fillAt l)

/-- Modelled from the spec: the result of the monotonic trend test, absent from
the script under `src/`: either the "insufficient data" sentinel carrying the
observed count (tau and p undefined), or a numeric tau with the count.  The
two-sided p-value is a transcendental normal-tail quantity and stays outside
this rational model; tau and n are what the claims examine. -/
inductive TrendResult where
  | insufficientData (n : ℕ)
  | trend (tau : ℚ) (n : ℕ)
deriving DecidableEq, Repr

/-- Sign of `b - a` as used by Kendall's tau: `1` for a concordant pair, `-1`
for a discordant pair, `0` for a tie. -/
def pairSign (a b : ℚ) : ℤ :=
  if a < b then 1 else if b < a then -1 else 0

/-- Modelled from the spec: the concordant-minus-discordant pair count of
Kendall's tau between the contiguous index `0..n-1` and the values, i.e. the
sum of `pairSign` over all index pairs `i < j`. -/
def kendallNum : List ℚ → ℤ
  | [] => 0
  | x :: rest => (rest.map (fun y => pairSign x y)).sum + kendallNum rest

/-- Modelled from the spec: Kendall's tau between the contiguous index and the
values: the pair statistic normalised by the number `n.choose 2` of pairs. -/
def kendallTau (vals : List ℚ) : ℚ :=
  (kendallNum vals : ℚ) / (vals.length.choose 2 : ℚ)

/-- Modelled from the spec: the monotonic trend test over the gap-filled,
still-partially-undefined PM2.5 series.  Undefined entries are dropped and the
remaining values re-indexed contiguously; with fewer than 8 non-missing points
the "insufficient data" sentinel carrying the actual count is returned instead
of a numeric tau; otherwise Kendall's tau over the `n` observations. -/
def trendTest (xs : List (Option ℚ)) : TrendResult :=
  let vals := xs.filterMap id
  if vals.length < 8 then .insufficientData vals.length
  else .trend (kendallTau vals) vals.length

/-- A January 2001 record carrying a single PM2.5 reading, before any derived
column is assigned. -/
def rowJan2001 : Row :=
  { date := ⟨2001, 1, 15⟩, pm25 := some 10, pm10 := none, o3 := none, no2 := none,
    month := none, monthName := none, season := none }

/-- A January record of the following year (same calendar month as
`rowJan2001`). -/
def rowJan2002 : Row :=
  { rowJan2001 with date := ⟨2002, 1, 20⟩ }

/-- An April 2001 record. -/
def rowApr2001 : Row :=
  { rowJan2001 with date := ⟨2001, 4, 10⟩ }

/-- A July 2001 record. -/
def rowJul2001 : Row :=
  { rowJan2001 with date := ⟨2001, 7, 10⟩ }

/-- An October 2001 record. -/
def rowOct2001 : Row :=
  { rowJan2001 with date := ⟨2001, 10, 10⟩ }

/-- A raw CSV frame holding a date column and daily PM2.5 only: no column of
the frame matches any pm10, o3 or no2 candidate name. -/
def framePm25Only : RawFrame :=
  { header := ["date", "pm25tmean2"],
    rows := [ { date := ⟨2000, 6, 1⟩, cells := [("pm25tmean2", some 12)] },
              { date := ⟨2001, 6, 1⟩, cells := [("pm25tmean2", some 15)] },
              { date := ⟨2002, 6, 1⟩, cells := [("pm25tmean2", some 9)] } ] }

/-- A dense daily series whose two endpoints are observed and whose interior
is a 10-day gap of missing days. -/
def gapSeries : List (Option ℚ) :=
  [some 1] ++ List.replicate 10 none ++ [some 2]

/-- C1 counterexample: on the empty filtered series (`total_records = 0`) the
script's coverage computation is an unguarded `0 / 0` (NaN, modelled `none`),
so it does not equal the guarded value `100 * count / max(1, total_records)`
(which is `0` there): the claimed formula with its division-by-zero guard is
not what the code computes on a series with zero records. -/
theorem c1_counterexample :
    coveragePct ([] : List (Option ℚ)) ≠
      some (specCoverage (countPoll ([] : List (Option ℚ)))
        (List.length ([] : List (Option ℚ)))) := by
  decide

/-- C1 (amended): for every nonempty filtered series the coverage percentage
`(count / total_records) * 100` computed by the script equals
`100 * count / max(1, total_records)`; the `max(1, ·)` guard is absent from the
code, so on an empty series the division is by zero and the percentage is
undefined (NaN) instead. -/
theorem c1_coverage_formula (xs : List (Option ℚ)) (h : xs ≠ []) :
    coveragePct xs = some (specCoverage (countPoll xs) xs.length) := by
  have hn : xs.length ≠ 0 := fun hl => h (List.length_eq_zero.mp hl)
  have h1 : max 1 xs.length = xs.length :=
    Nat.max_eq_right (Nat.one_le_iff_ne_zero.mpr hn)
  rw [coveragePct, if_neg hn, specCoverage, h1]
  congr 1
  ring

/-- C1 witness: the amended statement evaluated on a two-record series with one
non-missing PM2.5 value. -/
theorem c1_coverage_formula_witness :
    coveragePct [some (5 : ℚ), none] =
      some (specCoverage (countPoll [some (5 : ℚ), none])
        (List.length [some (5 : ℚ), none])) :=
  c1_coverage_formula [some (5 : ℚ), none] (by decide)

/-- C2 counterexample: the visualization stage and the report stage do not
leave their input unchanged — on a one-record frame both assign derived columns
onto the frame in place (`month`, `month_name`, `season` for the visualization
stage; `season` for the report stage), so the resulting frame differs from the
input. -/
theorem c2_counterexample :
    vizEffect [rowJan2001] ≠ [rowJan2001] ∧
    reportEffect [rowJan2001] ≠ [rowJan2001] := by
  decide

/-- C2 (amended): the visualization and report stages mutate the frame passed
to them in place by assigning the derived `month`, `month_name` and `season`
columns, but they preserve the number of records and every record's date and
pollutant values. -/
theorem c2_stages_preserve_core (rows : List Row) :
    (vizEffect rows).map coreView = rows.map coreView ∧
    (reportEffect rows).map coreView = rows.map coreView := by
  constructor
  · rw [vizEffect, List.map_map]
    rfl
  · rw [reportEffect, List.map_map]
    rfl

/-- C3 counterexample: on a raw table whose columns are only `date` and
`pm25tmean2` (so no column matches any pm10/o3/no2 name), the pipeline does not
complete: the hard-coded column selection
`df[['pm25tmean2', 'pm10tmean2', 'o3tmean2', 'no2tmean2']]` raises a
`KeyError`, so the loader aborts instead of degrading to an all-undefined
pollutant field. -/
theorem c3_counterexample :
    ("pm10tmean2" ∉ framePm25Only.header) ∧
    load_and_preprocess_data framePm25Only =
      .error "KeyError: pollutant column missing" :=
  ⟨by decide, by rfl⟩

/-- C3 (amended): whenever any of the four hard-coded pollutant column names is
absent from the input table, the loader raises a `KeyError` and the pipeline
aborts; a missing pollutant column is not tolerated. -/
theorem c3_missing_column_errors (f : RawFrame)
    (h : ∃ c ∈ requiredCols, c ∉ f.header) :
    load_and_preprocess_data f = .error "KeyError: pollutant column missing" := by
  obtain ⟨c, hc, hnot⟩ := h
  have hall : ¬ (requiredCols.all (fun c => decide (c ∈ f.header)) = true) := by
    simp only [List.all_eq_true, decide_eq_true_eq]
    exact fun hforall => hnot (hforall c hc)
  rw [load_and_preprocess_data, if_neg hall]

/-- C3 witness: the amended statement evaluated on the PM2.5-only table. -/
theorem c3_missing_column_errors_witness :
    load_and_preprocess_data framePm25Only =
      .error "KeyError: pollutant column missing" :=
  c3_missing_column_errors framePm25Only ⟨"pm10tmean2", by decide, by decide⟩

/-- C5: on every series with fewer than 8 non-missing observations the trend
test returns the "insufficient data" sentinel carrying the actual observed
count, with tau and p undefined, instead of failing or producing a numeric
tau. -/
theorem c5_insufficient_data (xs : List (Option ℚ))
    (h : (xs.filterMap id).length < 8) :
    trendTest xs = .insufficientData (xs.filterMap id).length := by
  simp [trendTest, h]

/-- C5 witness: the trend test on a five-record series with three non-missing
values returns the sentinel with count 3. -/
theorem c5_insufficient_data_witness :
    trendTest [some (3 : ℚ), none, some 4, some 1, none] =
      .insufficientData (([some (3 : ℚ), none, some 4, some 1, none].filterMap id).length) :=
  c5_insufficient_data _ (by decide)

/-- C6: for every year bound, the Temporal Filter keeps a record exactly when
the record was in the input and its date's calendar year lies between the start
and stop year, both ends included; it is a sublist of the input (all other
records are dropped, order and multiplicity preserved). -/
theorem c6_temporal_filter_exact (start stop : ℕ) (rows : List RawRow) :
    (∀ r : RawRow, r ∈ temporalFilter start stop rows ↔
      (r ∈ rows ∧ start ≤ r.date.year ∧ r.date.year ≤ stop)) ∧
    (temporalFilter start stop rows).Sublist rows := by
  constructor
  · intro r
    simp [temporalFilter, List.mem_filter]
  · exact List.filter_sublist rows

/-- C7: the Temporal Filter is idempotent — filtering an already-filtered
series with the same year bound returns the identical series. -/
theorem c7_temporal_filter_idempotent (start stop : ℕ) (rows : List RawRow) :
    temporalFilter start stop (temporalFilter start stop rows) =
      temporalFilter start stop rows := by
  simp [temporalFilter, List.filter_filter]

/-- C8: the season column is assigned purely from the date's month number by
the fixed dictionary (Dec/Jan/Feb → Winter, Mar/Apr/May → Spring,
Jun/Jul/Aug → Summer, Sep/Oct/Nov → Fall): two records whose dates share a
month number receive the same season whatever their years, and the dictionary
takes the listed value on each of the twelve months. -/
theorem c8_season_from_month :
    (∀ r : Row, (addSeason r).season = seasonOfMonth r.date.month) ∧
    (∀ r₁ r₂ : Row, r₁.date.month = r₂.date.month →
      (addSeason r₁).season = (addSeason r₂).season) ∧
    seasonOfMonth 12 = some "Winter" ∧ seasonOfMonth 1 = some "Winter" ∧
    seasonOfMonth 2 = some "Winter" ∧ seasonOfMonth 3 = some "Spring" ∧
    seasonOfMonth 4 = some "Spring" ∧ seasonOfMonth 5 = some "Spring" ∧
    seasonOfMonth 6 = some "Summer" ∧ seasonOfMonth 7 = some "Summer" ∧
    seasonOfMonth 8 = some "Summer" ∧ seasonOfMonth 9 = some "Fall" ∧
    seasonOfMonth 10 = some "Fall" ∧ seasonOfMonth 11 = some "Fall" := by
  refine ⟨fun r => rfl, fun r₁ r₂ h => ?_, rfl, rfl, rfl, rfl, rfl, rfl, rfl,
    rfl, rfl, rfl, rfl, rfl⟩
  simp only [addSeason, h]

/-- C8 witness: a January 2001 record and a January 2002 record receive the
same season (year-independence evaluated on concrete records). -/
theorem c8_season_from_month_witness :
    (addSeason rowJan2001).season = (addSeason rowJan2002).season :=
  c8_season_from_month.2.1 rowJan2001 rowJan2002 rfl

/-- C9 counterexample: the seasonal aggregation `groupby('season')` does not
always yield 4 keys in the order Winter, Spring, Summer, Fall — on a
winter-only frame it yields the single key `Winter`, and on a frame containing
all four seasons its keys come out in alphabetical order Fall, Spring, Summer,
Winter. -/
theorem c9_counterexample :
    seasonKeys (vizEffect [rowJan2001]) = ["Winter"] ∧
    seasonKeys (vizEffect [rowJan2001, rowApr2001, rowJul2001, rowOct2001]) =
      ["Fall", "Spring", "Summer", "Winter"] ∧
    seasonKeys (vizEffect [rowJan2001, rowApr2001, rowJul2001, rowOct2001]) ≠
      ["Winter", "Spring", "Summer", "Fall"] := by
  decide

/-- C9 (amended): the seasonal aggregation's key list is the set of seasons
actually occurring in the season column, with no duplicates, ordered
alphabetically (a sublist of Fall, Spring, Summer, Winter) — so all four keys
appear, in that alphabetical order, exactly when every season occurs in the
data. -/
theorem c9_season_keys (rows : List Row) :
    (seasonKeys rows).Sublist allSeasonsAlpha ∧
    (seasonKeys rows).Nodup ∧
    (∀ s : String, s ∈ seasonKeys rows ↔
      (s ∈ allSeasonsAlpha ∧ s ∈ rows.filterMap (fun r => r.season))) := by
  refine ⟨List.filter_sublist allSeasonsAlpha, ?_, ?_⟩
  · exact (List.filter_sublist allSeasonsAlpha).nodup (by decide)
  · intro s
    simp [seasonKeys, List.mem_filter]

/-- C10 counterexample: on the empty filtered series the pollutant count is 0
but the coverage percentage does not equal 0 — the computation is `0 / 0`
(NaN, modelled `none`), so coverage_pct is not a real in [0, 100] there and
"equals 0 exactly when count = 0" fails. -/
theorem c10_counterexample :
    countPoll ([] : List (Option ℚ)) = 0 ∧
    coveragePct ([] : List (Option ℚ)) ≠ some 0 := by
  decide

/-- C10 (amended): for every nonempty filtered series the coverage percentage
is a defined rational in [0, 100], equal to 0 exactly when the count is 0 and
equal to 100 exactly when the count equals the number of records; on the empty
series it is undefined (NaN) instead. -/
theorem c10_coverage_bounds (xs : List (Option ℚ)) (h : xs ≠ []) :
    ∃ q : ℚ, coveragePct xs = some q ∧ 0 ≤ q ∧ q ≤ 100 ∧
      (q = 0 ↔ countPoll xs = 0) ∧ (q = 100 ↔ countPoll xs = xs.length) := by
  have hn : xs.length ≠ 0 := fun hl => h (List.length_eq_zero.mp hl)
  have hpos : (0 : ℚ) < (xs.length : ℚ) := by
    exact_mod_cast Nat.pos_of_ne_zero hn
  have hle : countPoll xs ≤ xs.length := List.length_filterMap_le id xs
  have hleq : ((countPoll xs : ℚ)) ≤ (xs.length : ℚ) := by exact_mod_cast hle
  refine ⟨((countPoll xs : ℚ) / (xs.length : ℚ)) * 100,
    by rw [coveragePct, if_neg hn], ?_, ?_, ?_, ?_⟩
  · positivity
  · calc ((countPoll xs : ℚ) / (xs.length : ℚ)) * 100
        ≤ 1 * 100 := by
          gcongr
          exact (div_le_one hpos).mpr hleq
      _ = 100 := one_mul 100
  · rw [mul_eq_zero, div_eq_zero_iff]
    constructor
    · rintro ((hc | hl) | h100)
      · exact_mod_cast hc
      · exact absurd hl (ne_of_gt hpos)
      · norm_num at h100
    · intro hc
      exact Or.inl (Or.inl (by exact_mod_cast hc))
  · constructor
    · intro hq
      have heq : (countPoll xs : ℚ) = (xs.length : ℚ) := by
        field_simp at hq
        linarith
      exact_mod_cast heq
    · intro hc
      rw [hc, div_self (ne_of_gt hpos), one_mul]

/-- C10 witness: the amended statement evaluated on a two-record series with
one non-missing value. -/
theorem c10_coverage_bounds_witness :
    ∃ q : ℚ, coveragePct [some (5 : ℚ), none] = some q ∧ 0 ≤ q ∧ q ≤ 100 ∧
      (q = 0 ↔ countPoll [some (5 : ℚ), none] = 0) ∧
      (q = 100 ↔ countPoll [some (5 : ℚ), none] = List.length [some (5 : ℚ), none]) :=
  c10_coverage_bounds [some (5 : ℚ), none] (by decide)

/-- Auxiliary: when the first `t` entries of a series are all missing, the
first defined entry, if any exists, sits at position at least `t`. -/
theorem firstDef_ge (t : ℕ) :
    ∀ L : List (Option ℚ), (∀ s, s < t → L.get? s = some none) →
      ∀ p : ℕ × ℚ, firstDef L = some p → t ≤ p.1 := by
  induction t with
  | zero =>
    intro L h p hp
    exact Nat.zero_le _
  | succ t ih =>
    intro L h p hp
    have h0 : L.get? 0 = some none := h 0 (Nat.succ_pos t)
    cases L with
    | nil => simp at h0
    | cons x rest =>
      have hx : x = none := by simpa using h0
      subst hx
      simp only [firstDef] at hp
      rcases Option.map_eq_some'.mp hp with ⟨q, hq, hpq⟩
      have hq1 : t ≤ q.1 := by
        refine ih rest ?_ q hq
        intro s hs
        simpa using h (s + 1) (Nat.succ_lt_succ hs)
      have hp1 : p.1 = q.1 + 1 := by rw [← hpq]
      omega

/-- Auxiliary: when every entry from position `a` up to (excluding) position
`i` is missing, the nearest defined entry before `i`, if any exists, sits
strictly before `a`. -/
theorem prevDef_lt (l : List (Option ℚ)) (a : ℕ) :
    ∀ i : ℕ, (∀ m, a ≤ m → m < i → l.get? m = some none) →
      ∀ p : ℕ × ℚ, prevDef l i = some p → p.1 < a := by
  intro i
  induction i with
  | zero =>
    intro h p hp
    simp [prevDef] at hp
  | succ i ih =>
    intro h p hp
    simp only [prevDef] at hp
    split at hp
    · rename_i v heq
      by_cases hai : a ≤ i
      · have hmi : l.get? i = some none := h i hai (Nat.lt_succ_self i)
        rw [hmi] at heq
        simp at heq
      · cases hp
        omega
    · exact ih (fun m hm1 hm2 => h m hm1 (Nat.lt_succ_of_lt hm2)) p hp

/-- Auxiliary: when every entry strictly between `i` and `b` is missing, the
nearest defined entry after `i`, if any exists, sits at position at least
`b`. -/
theorem nextDef_ge (l : List (Option ℚ)) (i b : ℕ) (hib : i < b)
    (h : ∀ m, i < m → m < b → l.get? m = some none) :
    ∀ p : ℕ × ℚ, nextDef l i = some p → b ≤ p.1 := by
  intro p hp
  simp only [nextDef] at hp
  rcases Option.map_eq_some'.mp hp with ⟨q, hq, hpq⟩
  have hge : b - (i + 1) ≤ q.1 := by
    refine firstDef_ge (b - (i + 1)) (l.drop (i + 1)) ?_ q hq
    intro s hs
    rw [List.get?_drop]
    exact h (i + 1 + s) (by omega) (by omega)
  have hp1 : p.1 = i + 1 + q.1 := by rw [← hpq]
  omega

/-- C4: the Gap-Filling Resampler never interpolates across a gap longer than
7 consecutive missing calendar days — every day inside a run of more than 7
consecutive missing days is still undefined after the interpolation pass. -/
theorem c4_long_gaps_stay_undefined (l : List (Option ℚ)) (a g : ℕ)
    (h7 : 7 < g) (hlen : a + g ≤ l.length)
    (hrun : ∀ m, m < a + g → a ≤ m → l.get? m = some none)
    (i : ℕ) (hai : a ≤ i) (hig : i < a + g) :
    (fillGaps l).get? i = some none := by
  have hil : i < l.length := lt_of_lt_of_le hig hlen
  have hmap : (fillGaps l).get? i = some (fillAt l i) := by
    rw [fillGaps, List.get?_map, List.get?_range hil, Option.map_some']
  rw [hmap]
  refine congrArg some ?_
  have hi : l.get? i = some none := hrun i hig hai
  simp only [fillAt]
  split
  · rename_i v heq
    rw [hi] at heq
    simp at heq
  · split
    · rename_i jp kp heq1 heq2
      have hj : jp.1 < a :=
        prevDef_lt l a i (fun m hm1 hm2 => hrun m (Nat.lt_trans hm2 hig) hm1) jp heq1
      have hk : a + g ≤ kp.1 :=
        nextDef_ge l i (a + g) hig
          (fun m hm1 hm2 => hrun m hm2 (le_trans hai (le_of_lt hm1))) kp heq2
      rw [if_neg]
      omega
    · rfl

/-- C4 witness: in a dense daily series with observed endpoints and a 10-day
interior gap, the day at offset 5 (inside the gap) stays undefined after
filling. -/
theorem c4_long_gaps_stay_undefined_witness :
    (fillGaps gapSeries).get? 5 = some none :=
  c4_long_gaps_stay_undefined gapSeries 1 10 (by decide) (by decide)
    (by decide) 5 (by decide) (by decide)
